import Mathlib

/-!
Shallow embedding of the detray navigation subsystem.

Sources embedded here:
- the navigator (class navigator, its nested state class and the enums of
  namespace navigation) found in
  src/core/include/detray/propagator/rk_stepper.hpp (second document in
  that file),
- the line intersector in
  src/core/include/detray/intersection/line_intersector.hpp,
- the cylinder portal intersector in src/unnamed/part_001.

Scalars are modelled as rationals. Iterators into the candidate vector are
modelled as indices (next, last) into a list, following the sources
index-free iterator pair (m_next, m_last). Geometry lookups that live in
headers outside src/ (the accelerator search, the per-shape mask checks and
the single-candidate re-intersection of intersection_kernel.hpp) enter the
navigator as explicit function parameters, so every theorem quantifies over
them.
-/

namespace detray

/-- Navigation status flags, from enum class navigation::status. -/
inductive NavStatus
  | e_abort
  | e_on_target
  | e_unknown
  | e_towards_object
  | e_on_module
  | e_on_portal
deriving DecidableEq

/-- Navigation trust levels, from enum class navigation::trust_level. -/
inductive TrustLevel
  | e_no_trust
  | e_fair
  | e_high
  | e_full
deriving DecidableEq

/-- Underlying integral values of the trust-level enumerators
(e_no_trust = 0, e_fair = 1, e_high = 3, e_full = 4); the C++ comparison
operators on the enum compare these values. -/
def TrustLevel.val : TrustLevel → Nat
  | .e_no_trust => 0
  | .e_fair => 1
  | .e_high => 3
  | .e_full => 4

/-- Navigation direction, from enum class navigation::direction. -/
inductive NavDirection
  | e_backward
  | e_forward
deriving DecidableEq

/-- Intersection status of a candidate record. The enumerators used by the
embedded intersectors are e_inside, e_outside and e_missed. -/
inductive IStatus
  | e_outside
  | e_missed
  | e_inside
deriving DecidableEq

/-- Direction of an intersection relative to track motion. -/
inductive IDirection
  | e_along
  | e_opposite
deriving DecidableEq

/-- The part of the surface descriptor the navigator reads from a cached
candidate (sf_desc.is_portal() and barcode().is_invalid()). -/
structure SurfaceDesc where
  is_portal : Bool := false
  barcode_invalid : Bool := false
deriving DecidableEq

/-- Modelled from the spec: the intersection record (intersection.hpp is not
under src/). Fields follow section 3 of the spec; default-constructed
records are not inside (section 4.1: only records that pass all checks get
status inside), so the default status is a miss. -/
structure Intersection2D where
  path : ℚ := 0
  loc : ℚ × ℚ := (0, 0)
  sf_desc : SurfaceDesc := {}
  volume_link : Nat := 0
  direction : IDirection := .e_along
  status : IStatus := .e_missed
  cos_incidence_angle : ℚ := 0
deriving DecidableEq

/-- Modelled from the spec: µm in the length units of units.hpp (not under
src/), whose base length unit is mm, so one µm is 1/1000. -/
def um : ℚ := mkRat 1 1000

/-- Navigation configuration, from struct navigation::config. The default
values are the source defaults 15 µm, 1 µm and -100 µm, written as plain
rationals (15/1000, 1/1000, -100/1000 in mm). -/
structure NavConfig where
  mask_tolerance : ℚ := mkRat 15 1000
  on_surface_tolerance : ℚ := mkRat 1 1000
  overstep_tolerance : ℚ := mkRat (-100) 1000
  search_window : Nat × Nat := (0, 0)

/-- Modelled from the spec: the invalid volume-link sentinel tested by
detail::is_invalid_value (the numeric maximum of the link type; the exact
value does not matter to any claim). -/
def invalid_link : Nat := 65535

/-- Test of detail::is_invalid_value on a volume link. -/
def is_invalid_value (v : Nat) : Bool := v == invalid_link

/-- The navigator state (class navigator::state). The candidate cache is a
list and the iterators m_next and m_last are indices into it. The detector
pointer and the inspector are not modelled (the void inspector does
nothing). Field defaults are the member initializers of the source. -/
structure NavState where
  heartbeat : Bool := false
  candidates : List Intersection2D := []
  next : Nat := 0
  last : Nat := 0
  status : NavStatus := .e_unknown
  direction : NavDirection := .e_forward
  trust_level : TrustLevel := .e_no_trust
  volume_index : Nat := 0
deriving DecidableEq

/-- Dereference of the m_next iterator (the current target candidate). Out
of range dereference is undefined behaviour in the source; the model
returns a default record there. -/
def peek (s : NavState) : Intersection2D :=
  s.candidates.getD s.next {}

/-- The state method current(): the candidate at m_next - 1 (the object
that was just reached). -/
def current (s : NavState) : Intersection2D :=
  s.candidates.getD (s.next - 1) {}

/-- The state method n_candidates(): std::distance(m_next, m_last), a
signed quantity. -/
def n_candidates (s : NavState) : Int :=
  (s.last : Int) - (s.next : Int)

/-- The state method is_exhausted(): std::distance(m_next, m_last) <= 0. -/
def NavState.is_exhausted (s : NavState) : Bool :=
  decide ((s.last : Int) - (s.next : Int) ≤ 0)

/-- The state method is_on_portal(). -/
def NavState.is_on_portal (s : NavState) : Bool :=
  s.status == NavStatus.e_on_portal

/-- The state method is_on_module(). -/
def NavState.is_on_module (s : NavState) : Bool :=
  s.status == NavStatus.e_on_module

/-- The state method is_complete(): status == e_on_target and not
m_heartbeat. -/
def NavState.is_complete (s : NavState) : Bool :=
  s.status == NavStatus.e_on_target && !s.heartbeat

/-- The private state method is_on_object(candidate, cfg):
math_ns::abs(candidate.path) < cfg.on_surface_tolerance. -/
def is_on_object (candidate : Intersection2D) (cfg : NavConfig) : Bool :=
  decide (|candidate.path| < cfg.on_surface_tolerance)

/-- The state method clear(): empty the cache and reset both iterators to
its end. -/
def NavState.clear (s : NavState) : NavState :=
  { s with candidates := [], next := 0, last := 0 }

/-- The state method set_no_trust(). -/
def NavState.set_no_trust (s : NavState) : NavState :=
  { s with trust_level := TrustLevel.e_no_trust }

/-- The state method set_full_trust(): keep the current level if it
compares less-or-equal to e_full, otherwise write e_full. -/
def NavState.set_full_trust (s : NavState) : NavState :=
  { s with trust_level :=
      if s.trust_level.val ≤ TrustLevel.e_full.val then s.trust_level
      else TrustLevel.e_full }

/-- The state method set_high_trust(): keep the current level if it
compares less-or-equal to e_high, otherwise write e_high. -/
def NavState.set_high_trust (s : NavState) : NavState :=
  { s with trust_level :=
      if s.trust_level.val ≤ TrustLevel.e_high.val then s.trust_level
      else TrustLevel.e_high }

/-- The state method set_fair_trust(): keep the current level if it
compares less-or-equal to e_fair, otherwise write e_fair. -/
def NavState.set_fair_trust (s : NavState) : NavState :=
  { s with trust_level :=
      if s.trust_level.val ≤ TrustLevel.e_fair.val then s.trust_level
      else TrustLevel.e_fair }

/-- The state method abort(): status e_abort, heartbeat false, and trust
level e_full so that nothing is done any more if aborted. The returned
heartbeat of the source is the heartbeat field of the result. -/
def NavState.abort (s : NavState) : NavState :=
  { s with status := NavStatus.e_abort, heartbeat := false,
           trust_level := TrustLevel.e_full }

/-- The state method exit(): status e_on_target, heartbeat false, trust
level e_full, then clear(). The returned heartbeat of the source is the
heartbeat field of the result. -/
def NavState.exit (s : NavState) : NavState :=
  NavState.clear { s with status := NavStatus.e_on_target, heartbeat := false,
                          trust_level := TrustLevel.e_full }

/-- First half of the navigator helper update_navigation_state: if the
next candidate is on object, advance m_next and classify the reached
record (e_on_portal when its surface descriptor is a portal, e_on_module
otherwise); otherwise the track still moves towards an object. -/
def classify (cfg : NavConfig) (s : NavState) : NavState :=
  if is_on_object (peek s) cfg then
    let s2 := { s with next := s.next + 1 }
    { s2 with status :=
        if (current s2).sf_desc.is_portal then NavStatus.e_on_portal
        else NavStatus.e_on_module }
  else
    { s with status := NavStatus.e_towards_object }

/-- The navigator helper update_navigation_state(cfg, navigation): run the
reach check and status classification, then lower trust to e_no_trust when
the cache is exhausted or a portal was reached, and raise it to e_full
otherwise. -/
def update_navigation_state (cfg : NavConfig) (s : NavState) : NavState :=
  let s1 := classify cfg s
  { s1 with trust_level :=
      if s1.is_exhausted || s1.is_on_portal then TrustLevel.e_no_trust
      else TrustLevel.e_full }

/-- Insertion of a record into a path-sorted list, keeping ties in their
original order. -/
def insertByPath (c : Intersection2D) : List Intersection2D → List Intersection2D
  | [] => [c]
  | x :: xs => if c.path < x.path then c :: x :: xs else x :: insertByPath c xs

/-- Modelled from the spec: detail::sequential_sort together with the
record comparison operator of intersection.hpp (neither is under src/)
sorts candidates by path ascending, stable on ties (spec section 4.4.1). -/
def sortByPath (l : List Intersection2D) : List Intersection2D :=
  l.foldr insertByPath []

/-- The float constant std::numeric_limits of the scalar type, maximum
value (the value of the single-precision maximum, 2 to the 128 minus 2 to
the 104); used by the fair-trust update to invalidate unreachable
candidates and by find_invalid to recognize them. -/
def scalar_max : ℚ := mkRat 340282346638528859811704183484516925440 1

/-- The navigator method init(propagation, cfg): clear the cache, set the
heartbeat, fill the cache with the candidates the accelerator search finds
for the current volume, sort by path, reset both iterators, run
update_navigation_state, and drop the heartbeat when that did not restore
full trust. The search parameter stands for visit_neighborhood together
with intersection_initialize (intersection_kernel.hpp is not under src/):
it maps a volume index to the records inserted into the cache. -/
def init (search : Nat → List Intersection2D) (cfg : NavConfig)
    (s : NavState) : NavState :=
  let s0 := { s.clear with heartbeat := true }
  let cands := sortByPath (search s0.volume_index)
  let s1 := { s0 with candidates := cands, next := 0, last := cands.length }
  let s2 := update_navigation_state cfg s1
  if !(s2.trust_level == TrustLevel.e_full) then { s2 with heartbeat := false }
  else s2

/-- The high-trust branch of update_kernel. The upd parameter stands for
update_candidate (which dispatches through intersection_update, not under
src/): it returns the re-intersected record and whether the track can
still reach it; the record is written back in place in both cases. The
returned flag is true when the source branch executes a return statement
and false when it falls through to the fair-trust case after
set_fair_trust(). -/
def highTrustStep (upd : Intersection2D → Intersection2D × Bool)
    (cfg : NavConfig) (s : NavState) : NavState × Bool :=
  let r1 := upd (peek s)
  let s1 := { s with candidates := s.candidates.set s.next r1.1 }
  if !r1.2 then
    ({ s1 with status := NavStatus.e_unknown,
               trust_level := TrustLevel.e_no_trust }, true)
  else
    let s2 := update_navigation_state cfg s1
    if s2.status == NavStatus.e_towards_object ||
       s2.trust_level == TrustLevel.e_no_trust then (s2, true)
    else
      let r2 := upd (peek s2)
      let s3 := { s2 with candidates := s2.candidates.set s2.next r2.1 }
      if r2.2 then (s3, true)
      else (s3.set_fair_trust, false)

/-- The fair-trust branch of update_kernel: re-intersect every candidate in
the range next to last, overwrite the path of the unreachable ones with
the numeric maximum, sort that range, keep m_next, move m_last to the
first invalidated record of the whole cache (find_invalid), then run
update_navigation_state. -/
def fairTrustStep (upd : Intersection2D → Intersection2D × Bool)
    (cfg : NavConfig) (s : NavState) : NavState :=
  let updated := s.candidates.mapIdx (fun i c =>
    if s.next ≤ i ∧ i < s.last then
      let r := upd c
      if r.2 then r.1 else { r.1 with path := scalar_max }
    else c)
  let sorted := updated.take s.next ++
    sortByPath ((updated.drop s.next).take (s.last - s.next)) ++
    updated.drop s.last
  let last1 := sorted.findIdx (fun c => decide (c.path = scalar_max))
  update_navigation_state cfg { s with candidates := sorted, last := last1 }

/-- The navigator method update_kernel(propagation, cfg): nothing on full
trust; on high trust run the high-trust branch, which may fall through; on
fair trust run the fair-trust re-sort; on no trust re-initialize the
volume. The guard of the high-trust branch is the implemented one,
including its redundant second disjunct. The assignment of the source line
m_heartbeat &= init(...) equals the heartbeat init leaves behind, because
the returned value of init is that same member after the call (the right
operand of a compound assignment is sequenced first). -/
def update_kernel (upd : Intersection2D → Intersection2D × Bool)
    (search : Nat → List Intersection2D) (cfg : NavConfig)
    (s : NavState) : NavState :=
  if s.trust_level == TrustLevel.e_full then s
  else
    let hs : NavState × Bool :=
      if s.trust_level == TrustLevel.e_high ||
         (n_candidates s == 1 && s.trust_level == TrustLevel.e_high) then
        highTrustStep upd cfg s
      else (s, false)
    if hs.2 then hs.1
    else if hs.1.trust_level == TrustLevel.e_fair then fairTrustStep upd cfg hs.1
    else if hs.1.trust_level == TrustLevel.e_no_trust then init search cfg hs.1
    else hs.1

/-- Variant of update_kernel that follows the words of the spec: the
high-trust branch guard is the plain trust-level test, without the
redundant disjunct the source carries. Everything else is identical. -/
def update_kernel_spec (upd : Intersection2D → Intersection2D × Bool)
    (search : Nat → List Intersection2D) (cfg : NavConfig)
    (s : NavState) : NavState :=
  if s.trust_level == TrustLevel.e_full then s
  else
    let hs : NavState × Bool :=
      if s.trust_level == TrustLevel.e_high then highTrustStep upd cfg s
      else (s, false)
    if hs.2 then hs.1
    else if hs.1.trust_level == TrustLevel.e_fair then fairTrustStep upd cfg hs.1
    else if hs.1.trust_level == TrustLevel.e_no_trust then init search cfg hs.1
    else hs.1

/-- The navigator method update(propagation, cfg): run update_kernel; if
that restored full trust return the heartbeat; otherwise, on a portal, set
the volume index to the volume link of the record just reached, exit when
that link is the invalid sentinel, and otherwise re-initialize the new
volume and force full trust and a live heartbeat; in every remaining case
re-initialize and abort when that still leaves the trust below full or the
cache exhausted. The result pairs the final state with the returned
heartbeat. -/
def update (upd : Intersection2D → Intersection2D × Bool)
    (search : Nat → List Intersection2D) (cfg : NavConfig)
    (s : NavState) : NavState × Bool :=
  let n1 := update_kernel upd search cfg s
  if n1.trust_level == TrustLevel.e_full then (n1, n1.heartbeat)
  else if n1.is_on_portal then
    let n2 := { n1 with volume_index := (current n1).volume_link }
    if is_invalid_value n2.volume_index then
      let n3 := n2.exit
      (n3, n3.heartbeat)
    else
      let n4 := init search cfg n2
      let n5 := { n4 with trust_level := TrustLevel.e_full, heartbeat := true }
      (n5, n5.heartbeat)
  else
    let n6 := init search cfg n1
    let n7 :=
      if !(n6.trust_level == TrustLevel.e_full) || n6.is_exhausted then n6.abort
      else n6
    (n7, n7.heartbeat)

/-- Iteration of update: the state left behind after n successive update
calls (discarding the returned heartbeats). -/
def iterateUpdate (upd : Intersection2D → Intersection2D × Bool)
    (search : Nat → List Intersection2D) (cfg : NavConfig) :
    Nat → NavState → NavState
  | 0, s => s
  | Nat.succ n, s => iterateUpdate upd search cfg n (update upd search cfg s).1

/-- A 3-vector over the scalar type. -/
structure Vec3 where
  x : ℚ
  y : ℚ
  z : ℚ
deriving DecidableEq

/-- Componentwise difference of two vectors. -/
def vsub (a b : Vec3) : Vec3 := ⟨a.x - b.x, a.y - b.y, a.z - b.z⟩

/-- Sum of a vector and a scaled vector, as used for the point of closest
approach p + d * A. -/
def vmadd (p : Vec3) (d : Vec3) (a : ℚ) : Vec3 :=
  ⟨p.x + d.x * a, p.y + d.y * a, p.z + d.z * a⟩

/-- Dot product (vector::dot). -/
def dot (a b : Vec3) : ℚ := a.x * b.x + a.y * b.y + a.z * b.z

/-- A ray trajectory: position and direction, the two quantities the line
intersector reads from detail::ray. -/
structure Ray where
  pos : Vec3
  dir : Vec3

/-- The parts of a placement transform the line intersector reads: the
third rotation column (the line direction) and the translation (the line
center). -/
structure Transform3 where
  z : Vec3
  t : Vec3

/-- A line mask. The local-frame projection and the inside check live in
mask and coordinate headers outside src/, so they are carried as function
parameters of the mask: to_local_frame maps the point of closest approach
and the track direction to local coordinates, is_inside applies the mask
bounds under a tolerance. -/
structure LineMask where
  volume_link : Nat
  to_local_frame : Transform3 → Vec3 → Vec3 → ℚ × ℚ
  is_inside : ℚ × ℚ → ℚ → IStatus

/-- Projection of the line direction onto the track direction (the scalar
zd of the line intersector). -/
def line_zd (trf : Transform3) (ray : Ray) : ℚ := dot trf.z ray.dir

/-- The denominator 1 - zd * zd of the line intersector. -/
def line_denom (trf : Transform3) (ray : Ray) : ℚ :=
  1 - line_zd trf ray * line_zd trf ray

/-- The path length A to the point of closest approach computed by the
line intersector: 1 / denom * (t2l_on_track - t2l_on_line * zd). -/
def line_path (trf : Transform3) (ray : Ray) : ℚ :=
  let t2l := vsub trf.t ray.pos
  1 / line_denom trf ray *
    (dot t2l ray.dir - dot t2l trf.z * line_zd trf ray)

/-- The point of closest approach on the track, m = p + d * A. -/
def line_poca (trf : Transform3) (ray : Ray) : Vec3 :=
  vmadd ray.pos ray.dir (line_path trf ray)

/-- The functor line_intersector::operator() of
src/core/include/detray/intersection/line_intersector.hpp: a miss when the
wire is parallel to the track (denom below 1e-5); otherwise the path is
recorded, and only when it is not below the overstep tolerance are the
local coordinates and the mask check evaluated; a record passing the mask
check additionally receives the surface descriptor, the direction flag,
the volume link and the incidence angle. -/
def line_intersector (ray : Ray) (sf : SurfaceDesc) (mask : LineMask)
    (trf : Transform3) (mask_tolerance overstep_tol : ℚ) : Intersection2D :=
  if line_denom trf ray < 1 / 100000 then
    { (default_is : Intersection2D) with status := IStatus.e_missed }
  else
    let A := line_path trf ray
    if overstep_tol ≤ A then
      let m := line_poca trf ray
      let l := mask.to_local_frame trf m ray.dir
      let st := mask.is_inside l mask_tolerance
      if st = IStatus.e_inside then
        { path := A, loc := l, sf_desc := sf,
          volume_link := mask.volume_link,
          direction := if A < 0 then IDirection.e_opposite
                       else IDirection.e_along,
          status := st,
          cos_incidence_angle := |line_zd trf ray| }
      else { (default_is : Intersection2D) with path := A, loc := l, status := st }
    else { (default_is : Intersection2D) with path := A }
where
  default_is : Intersection2D := {}

/-- Result of the quadratic-equation solver of cylinder_intersector
(quadratic_equation.hpp and cylinder_intersector.hpp are not under src/):
the number of solutions and the two roots, smaller and larger. -/
structure QuadraticSolution where
  solutions : Nat
  smaller : ℚ
  larger : ℚ
deriving DecidableEq

/-- The functor cylinder_portal_intersector::operator() of
src/unnamed/part_001. The solved quadratic qe stands for
this->solve_intersection(ray, mask, trf), and build stands for
this->build_candidate at a given root (both inherited from
cylinder_intersector, which is not under src/). When there is a solution
and the larger root is beyond the overstep tolerance, the single candidate
is built from the smaller root if that one is also beyond the tolerance
and from the larger root otherwise, and receives the surface descriptor;
in every other case the result is a miss. -/
def cylinder_portal_intersector (qe : QuadraticSolution)
    (build : ℚ → Intersection2D) (sf : SurfaceDesc)
    (overstep_tol : ℚ) : Intersection2D :=
  if 0 < qe.solutions ∧ overstep_tol < qe.larger then
    let t := if overstep_tol < qe.smaller then qe.smaller else qe.larger
    { build t with sf_desc := sf }
  else
    { (({} : Intersection2D)) with status := IStatus.e_missed }

/-! Concrete fixtures used to evaluate the model at explicit inputs. -/

/-- The default navigation configuration. -/
def navCfgEx : NavConfig := {}

/-- An update-candidate oracle that reports every candidate reachable and
leaves it unchanged. -/
def updKeep : Intersection2D → Intersection2D × Bool := fun c => (c, true)

/-- An accelerator search that finds no surface in any volume. -/
def searchEmpty : Nat → List Intersection2D := fun _ => []

/-- A portal record sitting on the track position whose volume link is the
invalid sentinel (the outermost portal). -/
def cPortalOut : Intersection2D :=
  { path := 0, sf_desc := { is_portal := true }, volume_link := 65535,
    status := IStatus.e_inside }

/-- A high-trust navigator state whose single cached candidate is the
outermost portal right at the track position. -/
def statePortal : NavState :=
  { heartbeat := true, candidates := [cPortalOut], next := 0, last := 1,
    status := NavStatus.e_towards_object, trust_level := TrustLevel.e_high,
    volume_index := 0 }

/-- A module record sitting on the track position. -/
def cModuleAt : Intersection2D := { path := 0, status := IStatus.e_inside }

/-- An accelerator search that finds exactly one module, right at the
track position, in every volume. -/
def searchOneModule : Nat → List Intersection2D := fun _ => [cModuleAt]

/-- A module record whose path is exactly the default on-surface
tolerance of 1 µm. -/
def cAtTol : Intersection2D := { path := mkRat 1 1000, status := IStatus.e_inside }

/-- A navigator state whose single cached candidate lies exactly at the
default on-surface tolerance. -/
def stateAtTol : NavState :=
  { heartbeat := true, candidates := [cAtTol], next := 0, last := 1,
    status := NavStatus.e_towards_object, trust_level := TrustLevel.e_fair,
    volume_index := 0 }

/-- A configuration with an on-surface tolerance of one unit, for boundary
evaluations. -/
def cfgTolOne : NavConfig := { on_surface_tolerance := 1 }

/-- Candidate records at, below and above the one-unit tolerance. -/
def cPathZero : Intersection2D := { path := 0, status := IStatus.e_inside }

/-- Candidate record exactly at the one-unit tolerance. -/
def cPathOne : Intersection2D := { path := 1, status := IStatus.e_inside }

/-- Candidate record one unit beyond the one-unit tolerance. -/
def cPathTwo : Intersection2D := { path := 2, status := IStatus.e_inside }

/-- A state targeting the record that sits exactly at the one-unit
tolerance. -/
def stateTolOne : NavState :=
  { heartbeat := true, candidates := [cPathOne], next := 0, last := 1,
    status := NavStatus.e_towards_object, trust_level := TrustLevel.e_fair,
    volume_index := 0 }

/-- A line mask whose local projection is trivial and whose bounds check
accepts every point. -/
def lineMaskEx : LineMask :=
  { volume_link := 7,
    to_local_frame := fun _ _ _ => (0, 0),
    is_inside := fun _ _ => IStatus.e_inside }

/-- A ray through the origin along x. -/
def rayEx : Ray := { pos := ⟨0, 0, 0⟩, dir := ⟨1, 0, 0⟩ }

/-- A wire along z placed one unit behind the ray position, so the point
of closest approach lies at path -1. -/
def trfEx : Transform3 := { z := ⟨0, 0, 1⟩, t := ⟨-1, 0, 0⟩ }

/-- A candidate builder recording only the root it was given. -/
def buildEx : ℚ → Intersection2D := fun t => { path := t, status := IStatus.e_inside }

/-- A quadratic with two solutions, the smaller root behind the overstep
tolerance of -1/10 and the larger root in front of it. -/
def qeEx : QuadraticSolution := ⟨2, mkRat (-1) 2, 3⟩

/-- A portal surface descriptor. -/
def sfPortalEx : SurfaceDesc := { is_portal := true }

/-! Helper lemmas about the shape of the navigator operations. -/

/-- Helper: update_navigation_state only rewrites the trust level of the
classified state. -/
theorem uns_eq (cfg : NavConfig) (s : NavState) :
    update_navigation_state cfg s =
      { classify cfg s with trust_level :=
          if (classify cfg s).is_exhausted || (classify cfg s).is_on_portal
          then TrustLevel.e_no_trust else TrustLevel.e_full } := rfl

/-- Helper: the classification step never touches the heartbeat, the
volume index, the cache or the last cursor, and never produces the abort
status. -/
theorem classify_fields (cfg : NavConfig) (s : NavState) :
    (classify cfg s).heartbeat = s.heartbeat ∧
    (classify cfg s).volume_index = s.volume_index ∧
    (classify cfg s).candidates = s.candidates ∧
    (classify cfg s).last = s.last ∧
    ((classify cfg s).status == NavStatus.e_abort) = false := by
  unfold classify
  split
  · dsimp only
    refine ⟨rfl, rfl, rfl, rfl, ?_⟩
    split <;> rfl
  · exact ⟨rfl, rfl, rfl, rfl, rfl⟩

/-- Helper: update_navigation_state never touches the heartbeat, the
volume index or the cache, and never produces the abort status. -/
theorem uns_fields (cfg : NavConfig) (s : NavState) :
    (update_navigation_state cfg s).heartbeat = s.heartbeat ∧
    (update_navigation_state cfg s).volume_index = s.volume_index ∧
    (update_navigation_state cfg s).candidates = s.candidates ∧
    ((update_navigation_state cfg s).status == NavStatus.e_abort) = false := by
  rw [uns_eq]
  obtain ⟨h1, h2, h3, _, h5⟩ := classify_fields cfg s
  exact ⟨h1, h2, h3, h5⟩

/-- Helper: init in the unfolded shape, with the intermediate state
named. -/
theorem init_eq (search : Nat → List Intersection2D) (cfg : NavConfig)
    (s : NavState) :
    init search cfg s =
      (let s2 := update_navigation_state cfg
        { s.clear with
          heartbeat := true,
          candidates := sortByPath (search s.volume_index),
          next := 0,
          last := (sortByPath (search s.volume_index)).length };
       if !(s2.trust_level == TrustLevel.e_full) then
         { s2 with heartbeat := false }
       else s2) := rfl

/-- Helper: init leaves the volume index unchanged. -/
theorem init_volume (search : Nat → List Intersection2D) (cfg : NavConfig)
    (s : NavState) :
    (init search cfg s).volume_index = s.volume_index := by
  rw [init_eq]
  obtain ⟨-, h2, -, -⟩ := uns_fields cfg
    { s.clear with
      heartbeat := true,
      candidates := sortByPath (search s.volume_index),
      next := 0,
      last := (sortByPath (search s.volume_index)).length }
  dsimp only
  split <;> simpa [NavState.clear] using h2

/-! Claim theorems. -/

/-- C2: after update_navigation_state, the trust level is e_no_trust
exactly when (after the possible advance of the next cursor) the cache is
exhausted or the status is e_on_portal, and it is e_full in every other
case. -/
theorem C2_trust_after_update_navigation_state (cfg : NavConfig) (s : NavState) :
    ((update_navigation_state cfg s).trust_level = TrustLevel.e_no_trust ↔
      ((update_navigation_state cfg s).last ≤ (update_navigation_state cfg s).next ∨
       (update_navigation_state cfg s).status = NavStatus.e_on_portal)) ∧
    ((update_navigation_state cfg s).trust_level = TrustLevel.e_no_trust ∨
     (update_navigation_state cfg s).trust_level = TrustLevel.e_full) := by
  rw [uns_eq]
  generalize classify cfg s = c
  cases hb : (c.is_exhausted || c.is_on_portal) with
  | true =>
    simp only [eq_self_iff_true, if_true]
    rw [Bool.or_eq_true] at hb
    refine ⟨⟨fun _ => ?_, fun _ => trivial⟩, Or.inl trivial⟩
    rcases hb with hb | hb
    · left
      unfold NavState.is_exhausted at hb
      simp only [decide_eq_true_eq] at hb
      omega
    · right
      unfold NavState.is_on_portal at hb
      exact beq_iff_eq.mp hb
  | false =>
    simp only [Bool.false_eq_true, if_false]
    rw [Bool.or_eq_false_iff] at hb
    obtain ⟨h1, h2⟩ := hb
    unfold NavState.is_exhausted at h1
    unfold NavState.is_on_portal at h2
    simp only [decide_eq_false_iff_not] at h1
    refine ⟨⟨fun h => absurd h (by simp), fun h => ?_⟩, Or.inr trivial⟩
    rcases h with h | h
    · exact absurd (by omega : (c.last : Int) - (c.next : Int) ≤ 0) h1
    · rw [h] at h2; simp at h2

/-- C3: the claim that abort() and exit() never write trust_level = e_full
is false: NavState.abort applied to the default-constructed state (whose
trust level is e_no_trust) leaves a state with trust level e_full. -/
theorem C3_cex :
    (NavState.abort {}).trust_level = TrustLevel.e_full ∧
    ({} : NavState).trust_level = TrustLevel.e_no_trust :=
  ⟨rfl, rfl⟩

/-- C3 (amended): besides init and a successful update_navigation_state,
the terminal transitions abort() and exit() also write trust_level =
e_full (so that subsequent updates leave the state alone). -/
theorem C3_terminal_trust (s : NavState) :
    (NavState.abort s).trust_level = TrustLevel.e_full ∧
    (NavState.exit s).trust_level = TrustLevel.e_full :=
  ⟨rfl, rfl⟩

/-- C4: the claim that heartbeat = false implies status is e_on_target or
e_abort after every navigator call is false: init over a volume holding a
single module candidate right at the track position drops the heartbeat
(the cache is exhausted after the advance, so trust cannot reach e_full)
while leaving status = e_on_module. -/
theorem C4_cex :
    (init searchOneModule navCfgEx {}).heartbeat = false ∧
    (init searchOneModule navCfgEx {}).status = NavStatus.e_on_module := by
  decide

/-- C4 (amended): after init, the heartbeat is false exactly when the
trust level is not e_full; a failing init signals the failure through the
heartbeat alone and never writes status = e_abort itself (update() is the
operation that aborts when its re-initialization fails). -/
theorem C4_init_failure_signal (search : Nat → List Intersection2D)
    (cfg : NavConfig) (s : NavState) :
    (init search cfg s).heartbeat =
      ((init search cfg s).trust_level == TrustLevel.e_full) ∧
    ((init search cfg s).status == NavStatus.e_abort) = false := by
  rw [init_eq]
  set U : NavState :=
    { s.clear with
      heartbeat := true,
      candidates := sortByPath (search s.volume_index),
      next := 0,
      last := (sortByPath (search s.volume_index)).length } with hU
  obtain ⟨hh, -, -, hst⟩ := uns_fields cfg U
  dsimp only
  cases hb : ((update_navigation_state cfg U).trust_level == TrustLevel.e_full) with
  | true =>
    simp only [hb, Bool.not_true, Bool.false_eq_true, if_false]
    refine ⟨?_, hst⟩
    rw [hh, hU]
  | false =>
    simp only [hb, Bool.not_false, if_true]
    exact ⟨by simp [hb], by simpa using hst⟩

/-- C1: when update_kernel leaves the state on a portal without full
trust, update sets the volume index to the volume link of the record just
reached; if that link is the invalid sentinel it exits (status
e_on_target, heartbeat false, cache cleared, is_complete true, returned
heartbeat false), and otherwise it re-initializes the new volume and
forces trust e_full and heartbeat true. -/
theorem C1_portal_switch (upd : Intersection2D → Intersection2D × Bool)
    (search : Nat → List Intersection2D) (cfg : NavConfig) (s n1 : NavState)
    (hk : update_kernel upd search cfg s = n1)
    (hp : n1.status = NavStatus.e_on_portal)
    (ht : (n1.trust_level == TrustLevel.e_full) = false) :
    (is_invalid_value (current n1).volume_link = true →
      update upd search cfg s =
        (NavState.exit { n1 with volume_index := (current n1).volume_link },
         false) ∧
      (NavState.exit { n1 with volume_index := (current n1).volume_link }).status
        = NavStatus.e_on_target ∧
      (NavState.exit { n1 with volume_index := (current n1).volume_link }).heartbeat
        = false ∧
      (NavState.exit { n1 with volume_index := (current n1).volume_link }).candidates
        = [] ∧
      (NavState.exit { n1 with volume_index := (current n1).volume_link }).is_complete
        = true) ∧
    (is_invalid_value (current n1).volume_link = false →
      update upd search cfg s =
        ({ init search cfg { n1 with volume_index := (current n1).volume_link } with
            trust_level := TrustLevel.e_full, heartbeat := true }, true) ∧
      (update upd search cfg s).1.trust_level = TrustLevel.e_full ∧
      (update upd search cfg s).1.heartbeat = true ∧
      (update upd search cfg s).1.volume_index = (current n1).volume_link) := by
  have hport : n1.is_on_portal = true := by
    unfold NavState.is_on_portal
    rw [hp]
    decide
  simp only [update]
  rw [hk, ht]
  simp only [Bool.false_eq_true, if_false]
  rw [hport]
  simp only [if_true]
  constructor
  · intro hinv
    rw [hinv]
    simp only [if_true]
    refine ⟨?_, ?_, ?_, ?_, ?_⟩ <;> rfl
  · intro hinv
    rw [hinv]
    simp only [Bool.false_eq_true, if_false]
    refine ⟨?_, ?_, ?_, ?_⟩ <;>
      first
        | trivial
        | (dsimp only; rw [init_volume])

/-- C1 witness: a high-trust state targeting the outermost portal (volume
link invalid) exits on the next update. -/
theorem C1_witness :
    update updKeep searchEmpty navCfgEx statePortal =
      (NavState.exit
        { update_kernel updKeep searchEmpty navCfgEx statePortal with
          volume_index :=
            (current (update_kernel updKeep searchEmpty navCfgEx statePortal)).volume_link },
       false) ∧
    (NavState.exit
      { update_kernel updKeep searchEmpty navCfgEx statePortal with
        volume_index :=
          (current (update_kernel updKeep searchEmpty navCfgEx statePortal)).volume_link }).status
      = NavStatus.e_on_target ∧
    (NavState.exit
      { update_kernel updKeep searchEmpty navCfgEx statePortal with
        volume_index :=
          (current (update_kernel updKeep searchEmpty navCfgEx statePortal)).volume_link }).heartbeat
      = false ∧
    (NavState.exit
      { update_kernel updKeep searchEmpty navCfgEx statePortal with
        volume_index :=
          (current (update_kernel updKeep searchEmpty navCfgEx statePortal)).volume_link }).candidates
      = [] ∧
    (NavState.exit
      { update_kernel updKeep searchEmpty navCfgEx statePortal with
        volume_index :=
          (current (update_kernel updKeep searchEmpty navCfgEx statePortal)).volume_link }).is_complete
      = true :=
  (C1_portal_switch updKeep searchEmpty navCfgEx statePortal
    (update_kernel updKeep searchEmpty navCfgEx statePortal) rfl (by decide)
    (by decide)).1 (by decide)

/-- C5: each of the actor-facing setters set_no_trust, set_fair_trust,
set_high_trust and set_full_trust can only lower the trust level, never
raise it (comparison in the underlying enumerator values). -/
theorem C5_setters_monotone (s : NavState) :
    (s.set_no_trust).trust_level.val ≤ s.trust_level.val ∧
    (s.set_fair_trust).trust_level.val ≤ s.trust_level.val ∧
    (s.set_high_trust).trust_level.val ≤ s.trust_level.val ∧
    (s.set_full_trust).trust_level.val ≤ s.trust_level.val := by
  cases h : s.trust_level <;>
    simp [NavState.set_no_trust, NavState.set_fair_trust,
      NavState.set_high_trust, NavState.set_full_trust, TrustLevel.val, h]

/-- C9: the implemented high-trust guard of update_kernel, with its
redundant second disjunct, is equivalent to the plain trust-level test:
both versions of update_kernel compute the same state on every input. -/
theorem C9_kernel_guard_equiv (upd : Intersection2D → Intersection2D × Bool)
    (search : Nat → List Intersection2D) (cfg : NavConfig) (s : NavState) :
    update_kernel upd search cfg s = update_kernel_spec upd search cfg s := by
  unfold update_kernel update_kernel_spec
  have h : (s.trust_level == TrustLevel.e_high ||
      (n_candidates s == 1 && s.trust_level == TrustLevel.e_high)) =
      (s.trust_level == TrustLevel.e_high) := by
    cases hb : (s.trust_level == TrustLevel.e_high) <;> simp [hb]
  rw [h]

/-- C6: the claim that a record whose path equals on_surface_tolerance
exactly is classified on object is false: with the default configuration
(tolerance 1 µm) a candidate at path 1/1000 fails the on-object test and
update_navigation_state classifies it e_towards_object. -/
theorem C6_cex :
    is_on_object cAtTol navCfgEx = false ∧
    (update_navigation_state navCfgEx stateAtTol).status =
      NavStatus.e_towards_object := by
  decide

/-- C6 (amended): the on-object test uses a strict comparison: a record
with absolute path strictly below on_surface_tolerance is on object; a
record at exactly on_surface_tolerance, or at on_surface_tolerance plus
any positive amount, is not, and update_navigation_state then classifies
the state e_towards_object. -/
theorem C6_on_object_boundary (cfg : NavConfig) (c : Intersection2D)
    (ε : ℚ) (s : NavState) :
    (|c.path| < cfg.on_surface_tolerance → is_on_object c cfg = true) ∧
    (c.path = cfg.on_surface_tolerance → is_on_object c cfg = false) ∧
    (0 < ε → c.path = cfg.on_surface_tolerance + ε →
      is_on_object c cfg = false) ∧
    (is_on_object (peek s) cfg = false →
      (update_navigation_state cfg s).status = NavStatus.e_towards_object) := by
  refine ⟨?_, ?_, ?_, ?_⟩
  · intro h
    unfold is_on_object
    exact decide_eq_true h
  · intro h
    unfold is_on_object
    rw [h]
    simp only [decide_eq_false_iff_not]
    exact not_lt.mpr (le_abs_self _)
  · intro hε h
    unfold is_on_object
    rw [h]
    simp only [decide_eq_false_iff_not, not_lt]
    calc cfg.on_surface_tolerance ≤ cfg.on_surface_tolerance + ε := by linarith
      _ ≤ |cfg.on_surface_tolerance + ε| := le_abs_self _
  · intro h
    rw [uns_eq]
    dsimp only
    unfold classify
    rw [h]
    simp only [Bool.false_eq_true, if_false]

/-- C6 witness: with a one-unit tolerance, path 0 is on object while paths
1 (exactly the tolerance) and 2 (tolerance plus one) are not, and the
state targeting the path-1 record is classified e_towards_object. -/
theorem C6_witness :
    is_on_object cPathZero cfgTolOne = true ∧
    is_on_object cPathOne cfgTolOne = false ∧
    is_on_object cPathTwo cfgTolOne = false ∧
    (update_navigation_state cfgTolOne stateTolOne).status =
      NavStatus.e_towards_object :=
  ⟨(C6_on_object_boundary cfgTolOne cPathZero 1 stateTolOne).1 (by decide),
   (C6_on_object_boundary cfgTolOne cPathOne 1 stateTolOne).2.1 (by decide),
   (C6_on_object_boundary cfgTolOne cPathTwo 1 stateTolOne).2.2.1 (by decide)
     (by norm_num [cPathTwo, cfgTolOne]),
   (C6_on_object_boundary cfgTolOne cPathOne 1 stateTolOne).2.2.2 (by decide)⟩

/-- C7: the claim that the line intersector rejects an intersection whose
path equals overstep_tolerance exactly is false: at a wire one unit behind
the ray position (path -1) and overstep tolerance -1 the comparison is
path greater-or-equal tolerance, so the record passes the mask check and
becomes status inside. -/
theorem C7_cex :
    (line_intersector rayEx {} lineMaskEx trfEx 0 (-1)).status =
      IStatus.e_inside ∧
    (line_intersector rayEx {} lineMaskEx trfEx 0 (-1)).path = -1 := by
  constructor <;>
    norm_num [line_intersector, line_path, line_denom, line_zd, line_poca,
      vmadd, trfEx, rayEx, vsub, dot, lineMaskEx]

/-- C7 (amended): the line intersector rejects an intersection only when
its path is strictly below overstep_tolerance (such a record never becomes
inside); an intersection with path greater than or equal to
overstep_tolerance, including exactly equal, that passes the mask check is
kept with status inside and the computed path. -/
theorem C7_overstep_boundary (ray : Ray) (sf : SurfaceDesc) (mask : LineMask)
    (trf : Transform3) (mask_tolerance overstep_tol : ℚ) :
    (line_path trf ray < overstep_tol →
      ((line_intersector ray sf mask trf mask_tolerance overstep_tol).status ==
        IStatus.e_inside) = false) ∧
    (1 / 100000 ≤ line_denom trf ray →
     overstep_tol ≤ line_path trf ray →
     mask.is_inside (mask.to_local_frame trf (line_poca trf ray) ray.dir)
        mask_tolerance = IStatus.e_inside →
     (line_intersector ray sf mask trf mask_tolerance overstep_tol).status =
        IStatus.e_inside ∧
     (line_intersector ray sf mask trf mask_tolerance overstep_tol).path =
        line_path trf ray) := by
  constructor
  · intro h
    unfold line_intersector
    split
    · rfl
    · dsimp only
      rw [if_neg (not_le.mpr h)]
      rfl
  · intro h1 h2 h3
    unfold line_intersector
    rw [if_neg (not_lt.mpr h1)]
    dsimp only
    rw [if_pos h2, h3, if_pos rfl]
    exact ⟨rfl, rfl⟩

/-- C7 witness: at the wire one unit behind the ray position and overstep
tolerance -1 (equal to the computed path), the record is kept as inside
with the computed path. -/
theorem C7_witness :
    (line_intersector rayEx sfPortalEx lineMaskEx trfEx 0 (-1)).status =
      IStatus.e_inside ∧
    (line_intersector rayEx sfPortalEx lineMaskEx trfEx 0 (-1)).path =
      line_path trfEx rayEx :=
  (C7_overstep_boundary rayEx sfPortalEx lineMaskEx trfEx 0 (-1)).2
    (by norm_num [line_denom, line_zd, dot, trfEx, rayEx])
    (by norm_num [line_path, line_denom, line_zd, dot, vsub, trfEx, rayEx])
    rfl

/-- C8: the cylinder portal intersector keeps the single closest root
beyond the overstep tolerance: when the smaller root is at or behind the
tolerance and the larger root beyond it, the candidate is built from the
larger root; when both roots are beyond, from the smaller; when the larger
root is at or behind the tolerance or there is no solution, the result is
a miss. -/
theorem C8_portal_root_selection (qe : QuadraticSolution)
    (build : ℚ → Intersection2D) (sf : SurfaceDesc) (overstep_tol : ℚ) :
    (0 < qe.solutions → qe.smaller ≤ overstep_tol → overstep_tol < qe.larger →
      cylinder_portal_intersector qe build sf overstep_tol =
        { build qe.larger with sf_desc := sf }) ∧
    (0 < qe.solutions → overstep_tol < qe.smaller → overstep_tol < qe.larger →
      cylinder_portal_intersector qe build sf overstep_tol =
        { build qe.smaller with sf_desc := sf }) ∧
    (qe.larger ≤ overstep_tol ∨ qe.solutions = 0 →
      (cylinder_portal_intersector qe build sf overstep_tol).status =
        IStatus.e_missed) := by
  refine ⟨?_, ?_, ?_⟩
  · intro h0 hs hl
    unfold cylinder_portal_intersector
    rw [if_pos ⟨h0, hl⟩]
    dsimp only
    rw [if_neg (not_lt.mpr hs)]
  · intro h0 hs hl
    unfold cylinder_portal_intersector
    rw [if_pos ⟨h0, hl⟩]
    dsimp only
    rw [if_pos hs]
  · intro h
    unfold cylinder_portal_intersector
    have hc : ¬(0 < qe.solutions ∧ overstep_tol < qe.larger) := by
      rcases h with h | h
      · exact fun hcon => absurd hcon.2 (not_lt.mpr h)
      · exact fun hcon => by rw [h] at hcon; exact absurd hcon.1 (lt_irrefl 0)
    rw [if_neg hc]

/-- C8 witness: a quadratic with roots -1/2 and 3 under overstep tolerance
-1/10 selects the larger root 3. -/
theorem C8_witness :
    cylinder_portal_intersector qeEx buildEx sfPortalEx (mkRat (-1) 10) =
      { buildEx 3 with sf_desc := sfPortalEx } :=
  (C8_portal_root_selection qeEx buildEx sfPortalEx (mkRat (-1) 10)).1
    (by decide) (by decide) (by decide)

/-- C10: abort is terminal and inert: after NavState.abort, every update
returns heartbeat false and leaves the state unchanged (for any number of
subsequent update calls), because update_kernel returns immediately on the
full trust that abort() installed. -/
theorem C10_abort_inert (upd : Intersection2D → Intersection2D × Bool)
    (search : Nat → List Intersection2D) (cfg : NavConfig) (s : NavState)
    (n : Nat) :
    update upd search cfg (NavState.abort s) = (NavState.abort s, false) ∧
    iterateUpdate upd search cfg n (NavState.abort s) = NavState.abort s := by
  have hstep : update upd search cfg (NavState.abort s) = (NavState.abort s, false) := by
    simp [update, update_kernel, NavState.abort]
  refine ⟨hstep, ?_⟩
  induction n with
  | zero => rfl
  | succ n ih => simp [iterateUpdate, hstep, ih]

end detray
